import Mathlib

/-!
Verification development for the Stream Supervision subsystem of the
goddamneye camera server (backend/services/stream_worker.py and
backend/services/camera_manager.py), shallowly embedded in Lean.

Strings handled by the credential-encoding code are modelled as lists of
bytes (natural numbers below 256), matching the fact that Python's
urllib.parse.quote operates on the UTF-8 byte encoding of its argument.
The asynchronous lifecycle code is modelled as pure state transformers on
an explicit worker/manager state, returning the list of externally visible
actions (spawn, terminate, kill, task cancellation, status persistence)
that the Python code performs on that path.
-/

namespace Goddamneye

/-! ## Byte-level URL credential encoding (stream_worker._build_rtsp_url_with_auth) -/

/-- Membership in urllib.parse's always-safe set: ASCII letters, digits and
the characters underscore, period, hyphen, tilde.  `quote` with an empty
`safe` argument leaves exactly these bytes unescaped. -/
def isAlwaysSafe (b : Nat) : Bool :=
  (65 ≤ b && b ≤ 90) || (97 ≤ b && b ≤ 122) || (48 ≤ b && b ≤ 57) ||
    b = 95 || b = 46 || b = 45 || b = 126

/-- Uppercase hexadecimal digit for a value below 16, as a byte
(0-9 become 48-57, 10-15 become 65-70), as produced by urllib's quoter. -/
def hexDigit (n : Nat) : Nat :=
  if n < 10 then 48 + n else 55 + n

/-- Percent-encoding of a single byte: an always-safe byte stands for
itself, any other byte becomes a percent sign followed by two uppercase
hex digits. -/
def quoteByte (b : Nat) : List Nat :=
  if isAlwaysSafe b then [b] else [37, hexDigit (b / 16), hexDigit (b % 16)]

/-- Percent-encoding of a byte string, modelling
urllib.parse.quote(s, safe=""). -/
def quoteBytes : List Nat → List Nat
  | [] => []
  | b :: rest => quoteByte b ++ quoteBytes rest

/-- Value of a hexadecimal digit byte, accepting both cases, as
urllib.parse.unquote does. -/
def hexVal (c : Nat) : Option Nat :=
  if 48 ≤ c && c ≤ 57 then some (c - 48)
  else if 65 ≤ c && c ≤ 70 then some (c - 55)
  else if 97 ≤ c && c ≤ 102 then some (c - 87)
  else none

/-- Single-pass percent-decoding of a byte string, modelling one
application of urllib.parse.unquote: a percent sign followed by two hex
digits decodes to the corresponding byte, anything else is copied
through. -/
def unquoteBytes : List Nat → List Nat
  | [] => []
  | 37 :: h1 :: h2 :: rest =>
      match hexVal h1, hexVal h2 with
      | some a, some b => (16 * a + b) :: unquoteBytes rest
      | _, _ => 37 :: unquoteBytes (h1 :: h2 :: rest)
  | c :: rest => c :: unquoteBytes rest

/-- Occurrence search used to model Python's str.split(sep, 1): returns
the part before the first occurrence of the pattern and the part after
it, or none when the pattern does not occur. -/
def splitOnFirst (pat : List Nat) : List Nat → Option (List Nat × List Nat)
  | [] => none
  | c :: rest =>
      if pat.isPrefixOf (c :: rest) then some ([], (c :: rest).drop pat.length)
      else
        match splitOnFirst pat rest with
        | some (pre, post) => some (c :: pre, post)
        | none => none

/-- Byte string for "://" — colon, slash, slash. -/
def schemeSep : List Nat := [58, 47, 47]

/-- StreamWorker._build_rtsp_url_with_auth: when a username and password
are set (non-empty, None modelled as the empty byte string), and the URL
contains "://", and the part after "://" does not already contain an at
sign (byte 64), the percent-encoded credentials are inserted as
protocol ++ "://" ++ quote(user) ++ ":" ++ quote(pass) ++ "@" ++ rest;
otherwise the URL is returned unchanged. -/
def buildRtspUrlWithAuth (rtspUrl username password : List Nat) : List Nat :=
  if username ≠ [] ∧ password ≠ [] then
    match splitOnFirst schemeSep rtspUrl with
    | some (protocol, rest) =>
        if 64 ∈ rest then rtspUrl
        else
          protocol ++ schemeSep ++ quoteBytes username ++ [58] ++
            quoteBytes password ++ [64] ++ rest
    | none => rtspUrl
  else rtspUrl

/-! ## Externally visible actions of the lifecycle code -/

/-- Externally visible action performed by the supervision code: spawning
a process, signalling it, cancelling a background task, touching the
worker registry, or persisting an online/offline status to the store. -/
inductive Event where
  | spawn (pid : Nat)
  | terminate (pid : Nat)
  | kill (pid : Nat)
  | cancelMonitor
  | cancelHealthMonitor
  | removeWorker (cameraId : String)
  | persistStatus (cameraId : String) (isOnline : Bool)
deriving DecidableEq, Repr

/-! ## StreamWorker state (stream_worker.StreamWorker) -/

/-- Camera record fields read by the supervisor at worker-creation time
(models.camera.Camera as consumed by StreamWorker.__init__). -/
structure Camera where
  id : String
  name : String
  rtspUrl : String
  recordingEnabled : Bool
deriving DecidableEq, Repr

/-- Mutable state of one StreamWorker: the `_running` flag, the optional
process handle `_process` (modelled by its pid), `_restart_count`,
`_max_restarts`, and whether a not-yet-done `_monitor_task` exists. -/
structure WorkerState where
  cameraId : String
  cameraName : String
  recordingEnabled : Bool
  running : Bool
  process : Option Nat
  restartCount : Nat
  maxRestarts : Nat
  monitorTask : Bool
deriving DecidableEq, Repr

namespace StreamWorker

/-- StreamWorker.__init__: a fresh worker for a camera — not running, no
process handle, restart count 0, restart ceiling 10, no monitor task. -/
def init (cam : Camera) : WorkerState :=
  { cameraId := cam.id
    cameraName := cam.name
    recordingEnabled := cam.recordingEnabled
    running := false
    process := none
    restartCount := 0
    maxRestarts := 10
    monitorTask := false }

/-- StreamWorker.is_running property: the `_running` flag is set and a
process handle is present. -/
def is_running (s : WorkerState) : Bool :=
  s.running && s.process.isSome

/-- StreamWorker.start.  The environment supplies whether the ffmpeg
binary is found on the PATH (shutil.which), whether
asyncio.create_subprocess_exec succeeds (spawnOk false models the
exception branch, in which no assignment to `_process` has happened),
and the pid of the spawned process.  Returns the boolean result, the new
state and the visible actions taken. -/
def start (s : WorkerState) (ffmpegFound spawnOk : Bool) (pid : Nat) :
    Bool × WorkerState × List Event :=
  if s.running then (true, s, [])
  else if !ffmpegFound then (false, s, [])
  else if spawnOk then
    (true,
     { s with process := some pid, running := true, restartCount := 0,
              monitorTask := true },
     [Event.spawn pid])
  else (false, { s with running := false }, [])

/-- StreamWorker.stop.  Clears `_running`, cancels the monitor task when
one exists and is not done, then — when a process handle is present —
sends terminate and, when the graceful wait times out (gracefulAck
false), escalates to kill; the handle is cleared unconditionally in the
finally block. -/
def stop (s : WorkerState) (gracefulAck : Bool) : WorkerState × List Event :=
  let s1 : WorkerState := { s with running := false }
  let cancelEvs : List Event :=
    if s1.monitorTask then [Event.cancelMonitor] else []
  let s2 : WorkerState := { s1 with monitorTask := false }
  match s2.process with
  | none => (s2, cancelEvs)
  | some pid =>
      let sigEvs : List Event :=
        if gracefulAck then [Event.terminate pid]
        else [Event.terminate pid, Event.kill pid]
      ({ s2 with process := none }, cancelEvs ++ sigEvs)

/-- StreamWorker.restart: stop, sleep `_restart_delay`, then start. -/
def restart (s : WorkerState) (gracefulAck ffmpegFound spawnOk : Bool)
    (pid : Nat) : Bool × WorkerState × List Event :=
  let r1 := stop s gracefulAck
  let r2 := start r1.1 ffmpegFound spawnOk pid
  (r2.1, r2.2.1, r1.2 ++ r2.2.2)

/-- Tail of StreamWorker._monitor_output after the output stream reaches
end-of-file: when `_running` is still set and a process handle is
present, the process exit is awaited; if `_restart_count` is below
`_max_restarts` it is incremented and a restart task is scheduled
(returned flag true), otherwise `_running` is cleared and the worker is
given up on.  In every case the monitor task itself finishes (done). -/
def monitorExit (s : WorkerState) : WorkerState × Bool :=
  if s.running && s.process.isSome then
    if s.restartCount < s.maxRestarts then
      ({ s with restartCount := s.restartCount + 1, monitorTask := false }, true)
    else
      ({ s with running := false, monitorTask := false }, false)
  else ({ s with monitorTask := false }, false)

/-- One full crash cycle with an immediately exiting process: the monitor
observes the exit, and when a restart task was scheduled the restart runs
to completion in an environment where the spawn succeeds (ffmpeg found,
fresh pid).  Returns the state after the cycle and the visible actions. -/
def crashCycle (s : WorkerState) (pid : Nat) : WorkerState × List Event :=
  let r := monitorExit s
  if r.2 then
    let r2 := restart r.1 true true true pid
    (r2.2.1, r2.2.2)
  else (r.1, [])

end StreamWorker

/-! ## Status snapshots (stream_worker.get_status, camera_manager.get_camera_status) -/

/-- Value stored in a status dictionary: a string, a boolean, a number,
or Python's None. -/
inductive StatusValue where
  | s (v : String)
  | b (v : Bool)
  | n (v : Nat)
  | null
deriving DecidableEq, Repr

namespace StreamWorker

/-- StreamWorker.hls_playlist_url property. -/
def hls_playlist_url (s : WorkerState) : String :=
  "/hls/" ++ s.cameraId ++ "/stream.m3u8"

/-- StreamWorker.get_status: the ordered field list of the status
dictionary returned for a registered worker. -/
def get_status (s : WorkerState) : List (String × StatusValue) :=
  [("camera_id", StatusValue.s s.cameraId),
   ("camera_name", StatusValue.s s.cameraName),
   ("is_running", StatusValue.b (is_running s)),
   ("is_recording", StatusValue.b (is_running s && s.recordingEnabled)),
   ("hls_url",
     if is_running s then StatusValue.s (hls_playlist_url s)
     else StatusValue.null),
   ("restart_count", StatusValue.n s.restartCount),
   ("pid",
     match s.process with
     | some pid => StatusValue.n pid
     | none => StatusValue.null)]

end StreamWorker

/-! ## FFmpeg command construction (stream_worker._build_ffmpeg_command) -/

/-- Element of the built command line.  A `lit` is a flag or value that
appears literally in the source; a `data` is a value interpolated at run
time (binary path, input URL, output path, configured duration). -/
inductive Arg where
  | lit (v : String)
  | data (v : String)
deriving DecidableEq, Repr

/-- Configuration fields read by the command builder (config.Settings):
ffmpeg binary path, HLS root directory, storage root directory, and the
recording segment duration in seconds. -/
structure Settings where
  ffmpegPath : String
  hlsRoot : String
  storageRoot : String
  recordingSegmentDuration : Nat
deriving Repr

namespace StreamWorker

/-- Per-camera HLS directory: settings.get_hls_path() / camera.id. -/
def hlsPath (st : Settings) (cameraId : String) : String :=
  st.hlsRoot ++ "/" ++ cameraId

/-- Per-camera storage directory:
settings.get_storage_path() / "recordings" / camera.id. -/
def storagePath (st : Settings) (cameraId : String) : String :=
  st.storageRoot ++ "/recordings/" ++ cameraId

/-- Global and input options of the command (the initial cmd list). -/
def ffmpegBaseArgs (st : Settings) (rtspUrl : String) : List Arg :=
  [Arg.data st.ffmpegPath,
   Arg.lit "-hide_banner",
   Arg.lit "-loglevel", Arg.lit "warning",
   Arg.lit "-rtsp_transport", Arg.lit "tcp",
   Arg.lit "-i", Arg.data rtspUrl,
   Arg.lit "-err_detect", Arg.lit "ignore_err",
   Arg.lit "-fflags", Arg.lit "+genpts+discardcorrupt",
   Arg.lit "-reconnect", Arg.lit "1",
   Arg.lit "-reconnect_streamed", Arg.lit "1",
   Arg.lit "-reconnect_delay_max", Arg.lit "5"]

/-- HLS live-view output options (the first cmd.extend). -/
def hlsOutputArgs (st : Settings) (cameraId : String) : List Arg :=
  [Arg.lit "-map", Arg.lit "0:v:0",
   Arg.lit "-c:v", Arg.lit "copy",
   Arg.lit "-f", Arg.lit "hls",
   Arg.lit "-hls_time", Arg.lit "2",
   Arg.lit "-hls_list_size", Arg.lit "6",
   Arg.lit "-hls_flags", Arg.lit "delete_segments+append_list+omit_endlist",
   Arg.lit "-hls_segment_type", Arg.lit "mpegts",
   Arg.lit "-hls_segment_filename",
   Arg.data (hlsPath st cameraId ++ "/segment_%04d.ts"),
   Arg.data (hlsPath st cameraId ++ "/stream.m3u8")]

/-- Archival segment-recording output options (the cmd.extend inside the
recording_enabled branch), pointed at the per-camera storage directory
with ffmpeg strftime date expansion. -/
def recordingOutputArgs (st : Settings) (cameraId : String) : List Arg :=
  [Arg.lit "-map", Arg.lit "0:v:0",
   Arg.lit "-c:v", Arg.lit "copy",
   Arg.lit "-f", Arg.lit "segment",
   Arg.lit "-segment_time", Arg.data (toString st.recordingSegmentDuration),
   Arg.lit "-segment_format", Arg.lit "mp4",
   Arg.lit "-segment_atclocktime", Arg.lit "1",
   Arg.lit "-strftime", Arg.lit "1",
   Arg.lit "-reset_timestamps", Arg.lit "1",
   Arg.data (storagePath st cameraId ++ "/%Y-%m-%d/%H.mp4")]

/-- StreamWorker._build_ffmpeg_command: the command line handed to the
external tool together with the directories created on demand before the
invocation (the HLS directory always, the per-camera per-date archive
directory only when recording is enabled; today is the current date
formatted as in datetime.now().strftime). -/
def buildFfmpegCommand (st : Settings) (cameraId : String)
    (recordingEnabled : Bool) (rtspUrl today : String) :
    List Arg × List String :=
  let cmd := ffmpegBaseArgs st rtspUrl ++ hlsOutputArgs st cameraId
  if recordingEnabled then
    (cmd ++ recordingOutputArgs st cameraId,
     [hlsPath st cameraId, storagePath st cameraId ++ "/" ++ today])
  else (cmd, [hlsPath st cameraId])

end StreamWorker

/-! ## CameraManager state (camera_manager.CameraManager) -/

/-- Worker registry operations on the manager's dict, modelled as an
association list with distinct keys. -/
def lookupWorker (cid : String) :
    List (String × WorkerState) → Option WorkerState
  | [] => none
  | (k, w) :: rest => if k = cid then some w else lookupWorker cid rest

/-- Dict.pop: removes the entry for a key, when present. -/
def removeWorkerEntry (cid : String) :
    List (String × WorkerState) → List (String × WorkerState)
  | [] => []
  | (k, w) :: rest =>
      if k = cid then rest else (k, w) :: removeWorkerEntry cid rest

/-- Dict assignment: overwrites the entry for a key, or appends it. -/
def setWorkerEntry (cid : String) (w : WorkerState) :
    List (String × WorkerState) → List (String × WorkerState)
  | [] => [(cid, w)]
  | (k, v) :: rest =>
      if k = cid then (k, w) :: rest else (k, v) :: setWorkerEntry cid w rest

/-- Mutable state of the CameraManager: the `_workers` registry, the
`_running` flag, whether a not-yet-done health-monitor task exists, and
whether a database factory was provided (`_db_factory`). -/
structure ManagerState where
  workers : List (String × WorkerState)
  running : Bool
  monitorTask : Bool
  hasDb : Bool
deriving Repr

namespace CameraManager

/-- CameraManager._update_camera_status: a best-effort persistence write,
performed only when a database factory is present; failures inside it
are swallowed, so it is modelled by the attempted write alone. -/
def updateCameraStatus (m : ManagerState) (cid : String) (isOnline : Bool) :
    List Event :=
  if m.hasDb then [Event.persistStatus cid isOnline] else []

/-- CameraManager.stop_camera: pops the worker from the registry first;
when one was registered, its stop() runs and an offline status is
persisted, and the call returns True; otherwise it returns False having
done nothing. -/
def stopCamera (m : ManagerState) (cid : String) (gracefulAck : Bool) :
    Bool × ManagerState × List Event :=
  match lookupWorker cid m.workers with
  | none => (false, m, [])
  | some w =>
      let m1 : ManagerState := { m with workers := removeWorkerEntry cid m.workers }
      let r := StreamWorker.stop w gracefulAck
      (true, m1,
       Event.removeWorker cid :: r.2 ++ updateCameraStatus m1 cid false)

/-- CameraManager.start_camera: when a worker is already registered for
this id and is running, returns True immediately.  Otherwise a fresh
StreamWorker is created and started; on success it is stored in the
registry (overwriting any previous entry) and an online status is
persisted, on failure the registry is left unchanged and an offline
status is persisted.  The previously registered worker, if any, is never
stopped. -/
def startCamera (m : ManagerState) (cam : Camera)
    (ffmpegFound spawnOk : Bool) (pid : Nat) :
    Bool × ManagerState × List Event :=
  let fresh :=
    let r := StreamWorker.start (StreamWorker.init cam) ffmpegFound spawnOk pid
    if r.1 then
      (true,
       { m with workers := setWorkerEntry cam.id r.2.1 m.workers },
       r.2.2 ++ updateCameraStatus m cam.id true)
    else (false, m, r.2.2 ++ updateCameraStatus m cam.id false)
  match lookupWorker cam.id m.workers with
  | some w => if StreamWorker.is_running w then (true, m, []) else fresh
  | none => fresh

/-- CameraManager.get_camera_status: the snapshot for an unregistered id
has exactly the four fields below; a registered worker's snapshot is its
get_status dictionary. -/
def getCameraStatus (m : ManagerState) (cid : String) :
    List (String × StatusValue) :=
  match lookupWorker cid m.workers with
  | none =>
      [("camera_id", StatusValue.s cid),
       ("is_running", StatusValue.b false),
       ("is_recording", StatusValue.b false),
       ("hls_url", StatusValue.null)]
  | some w => StreamWorker.get_status w

/-- Shutdown helper: stop_camera issued for each id of the snapshot of
the registry's key list, all awaited (asyncio.gather with
return_exceptions — each call targets a distinct key, so the concurrent
gather is observationally the processing of the whole snapshot). -/
def stopAll (acks : String → Bool) :
    ManagerState → List String → ManagerState × List Event
  | m, [] => (m, [])
  | m, cid :: rest =>
      let r := stopCamera m cid (acks cid)
      let r2 := stopAll acks r.2.1 rest
      (r2.1, r.2.2 ++ r2.2)

/-- CameraManager.stop: clears the `_running` flag, cancels the
health-monitor task when one exists and is not done, then stops every
remaining registered camera.  The per-worker graceful-termination
acknowledgment is supplied by the environment per camera id. -/
def managerStop (m : ManagerState) (acks : String → Bool) :
    ManagerState × List Event :=
  let m1 : ManagerState := { m with running := false }
  let cancelEvs : List Event :=
    if m1.monitorTask then [Event.cancelHealthMonitor] else []
  let m2 : ManagerState := { m1 with monitorTask := false }
  let r := stopAll acks m2 (m2.workers.map Prod.fst)
  (r.1, cancelEvs ++ r.2)

end CameraManager

/-! ## Concrete fixtures used by witness statements -/

/-- Concrete camera used in witness instantiations. -/
def cam1 : Camera :=
  { id := "cam-1", name := "Camera 1", rtspUrl := "rtsp://h/p",
    recordingEnabled := false }

/-- Second concrete camera, recording enabled. -/
def cam2 : Camera :=
  { id := "cam-2", name := "Camera 2", rtspUrl := "rtsp://h/q",
    recordingEnabled := true }

/-- Concrete settings record used in witness instantiations. -/
def testSettings : Settings :=
  { ffmpegPath := "ffmpeg", hlsRoot := "/tmp/goddamneye/hls",
    storageRoot := "/storage", recordingSegmentDuration := 3600 }

/-- Freshly initialised (stopped) worker for cam1. -/
def stoppedWorker : WorkerState := StreamWorker.init cam1

/-- Worker for cam1 in the running state with a live process handle. -/
def runningWorker : WorkerState :=
  { StreamWorker.init cam1 with
    running := true, process := some 100, monitorTask := true }

/-- Worker for cam2 in the running state with a live process handle. -/
def runningWorker2 : WorkerState :=
  { StreamWorker.init cam2 with
    running := true, process := some 200, monitorTask := true }

/-- Manager owning the two running workers, health monitor active. -/
def testManager : ManagerState :=
  { workers := [("cam-1", runningWorker), ("cam-2", runningWorker2)],
    running := true, monitorTask := true, hasDb := true }

/-- Fresh worker immediately after a successful spawn inside
start_camera: running, holding the new pid, count 0, monitor active. -/
def startedWorker (cam : Camera) (pid : Nat) : WorkerState :=
  { StreamWorker.init cam with
    running := true, process := some pid, monitorTask := true }

/-- Worker for cam1 that is not running but still holds a (stale)
process handle, as left behind by the monitor's give-up branch. -/
def deadWorker : WorkerState :=
  { StreamWorker.init cam1 with process := some 50 }

/-- Manager owning only the dead cam-1 worker. -/
def managerWithDead : ManagerState :=
  { workers := [("cam-1", deadWorker)], running := true,
    monitorTask := true, hasDb := true }

/-- Per-camera graceful-termination acknowledgment of the shutdown
scenario: cam-1 acknowledges the terminate signal, cam-2 never does and
must be force-killed. -/
def testAcks : String → Bool := fun cid => cid == "cam-1"

/-- Manager with an empty registry. -/
def emptyManager : ManagerState :=
  { workers := [], running := true, monitorTask := true, hasDb := true }

/-- Worker of the spec's end-to-end restart scenario: camera cam-1 with
a restart ceiling of 2 (restart delay plays no role in the pure model). -/
def scenarioW0 : WorkerState :=
  { StreamWorker.init cam1 with maxRestarts := 2 }

/-- Scenario state after the initial successful start (pid 100). -/
def scenarioS0 : WorkerState :=
  (StreamWorker.start scenarioW0 true true 100).2.1

/-- Scenario state after the first crash cycle completed (respawn 101). -/
def scenarioS1 : WorkerState := (StreamWorker.crashCycle scenarioS0 101).1

/-- Scenario state after the second crash cycle completed (respawn 102). -/
def scenarioS2 : WorkerState := (StreamWorker.crashCycle scenarioS1 102).1

/-- State after a successful start of a fresh default worker (ceiling 10,
pid 100), used to exhibit the restart-count reset. -/
def defaultStarted : WorkerState :=
  (StreamWorker.start (StreamWorker.init cam1) true true 100).2.1

/-! ## Theorems -/

/-- C7: when start() is called on a stopped worker (not running, no
process handle, no monitor task) and the ffmpeg binary is not found or
the spawn throws, it returns False, the state is unchanged, and the
worker remains stopped with no process handle and no monitor loop. -/
theorem start_failure_leaves_worker_stopped (s : WorkerState)
    (ffmpegFound spawnOk : Bool) (pid : Nat)
    (hrun : s.running = false) (hproc : s.process = none)
    (hmon : s.monitorTask = false)
    (hfail : ffmpegFound = false ∨ spawnOk = false) :
    StreamWorker.start s ffmpegFound spawnOk pid = (false, s, []) ∧
    StreamWorker.is_running s = false ∧ s.process = none ∧
    s.monitorTask = false := by
  have heta : { s with running := false } = s := by
    cases s
    simp_all
  refine ⟨?_, by simp [StreamWorker.is_running, hrun], hproc, hmon⟩
  rcases hfail with hf | hf
  · subst hf
    simp [StreamWorker.start, hrun]
  · subst hf
    cases ffmpegFound <;> simp [StreamWorker.start, hrun, heta]

/-- Witness for C7: a fresh stopped worker with the ffmpeg binary
missing. -/
theorem start_failure_leaves_worker_stopped_witness :
    StreamWorker.start stoppedWorker false true 7 = (false, stoppedWorker, []) ∧
    StreamWorker.is_running stoppedWorker = false ∧
    stoppedWorker.process = none ∧ stoppedWorker.monitorTask = false :=
  start_failure_leaves_worker_stopped stoppedWorker false true 7
    (by rfl) (by rfl) (by rfl) (Or.inl rfl)

/-- C8: start() on a worker that is already running returns True with no
spawn (empty action list) and leaves the state unchanged. -/
theorem start_on_running_worker_is_noop (s : WorkerState)
    (ffmpegFound spawnOk : Bool) (pid : Nat)
    (h : StreamWorker.is_running s = true) :
    StreamWorker.start s ffmpegFound spawnOk pid = (true, s, []) := by
  have hrun : s.running = true := by
    have h2 := h
    simp only [StreamWorker.is_running, Bool.and_eq_true] at h2
    exact h2.1
  simp [StreamWorker.start, hrun]

/-- Witness for C8: the running cam-1 worker. -/
theorem start_on_running_worker_is_noop_witness :
    StreamWorker.start runningWorker true true 7 = (true, runningWorker, []) :=
  start_on_running_worker_is_noop runningWorker true true 7 (by rfl)

/-- C1: evaluation of the embedded code on the spec's scenario
(maxRestarts = 2, three consecutive immediate process exits, each
scheduled restart completing with a successful respawn).  After exit 1
the restart count is 1 and a restart is scheduled, as the claim states;
but after exit 2 the count is again 1 (the claim says 2), and after exit
3 a restart is again scheduled, a further spawn (pid 103) occurs and the
worker is running — the claim says the worker is Dead with no further
spawn attempt.  The cause: start() resets the restart count to 0 on
every successful start, including the one inside the automatic
restart. -/
theorem restart_ceiling_scenario_trace :
    (StreamWorker.monitorExit scenarioS0).1.restartCount = 1 ∧
    (StreamWorker.monitorExit scenarioS0).2 = true ∧
    (StreamWorker.monitorExit scenarioS1).1.restartCount = 1 ∧
    (StreamWorker.monitorExit scenarioS1).2 = true ∧
    (StreamWorker.monitorExit scenarioS2).1.restartCount = 1 ∧
    (StreamWorker.monitorExit scenarioS2).2 = true ∧
    (StreamWorker.crashCycle scenarioS2 103).1.running = true ∧
    StreamWorker.is_running (StreamWorker.crashCycle scenarioS2 103).1 = true ∧
    Event.spawn 103 ∈ (StreamWorker.crashCycle scenarioS2 103).2 := by
  decide

/-- C2: evaluation of the embedded code on a single crash of a freshly
started default worker: the monitor increments the restart count to 1
and schedules an automatic restart, and the completed automatic restart
(stop, then start, with a successful respawn at pid 101) resets the
restart count back to 0 — so the automatic restart after a crash does
reset restartCount, contradicting the claim that only an explicit start
does. -/
theorem auto_restart_resets_restart_count :
    (StreamWorker.monitorExit defaultStarted).1.restartCount = 1 ∧
    (StreamWorker.monitorExit defaultStarted).2 = true ∧
    (StreamWorker.crashCycle defaultStarted 101).1.restartCount = 0 ∧
    StreamWorker.is_running (StreamWorker.crashCycle defaultStarted 101).1 = true ∧
    Event.spawn 101 ∈ (StreamWorker.crashCycle defaultStarted 101).2 := by
  decide

/-- C10: the status snapshot for a camera id with no registered worker
has exactly the fields camera_id (the id), is_running = False,
is_recording = False and hls_url = None, and its key list omits
camera_name, restart_count and pid. -/
theorem get_camera_status_unregistered (m : ManagerState) (cid : String)
    (h : lookupWorker cid m.workers = none) :
    CameraManager.getCameraStatus m cid =
      [("camera_id", StatusValue.s cid),
       ("is_running", StatusValue.b false),
       ("is_recording", StatusValue.b false),
       ("hls_url", StatusValue.null)] ∧
    "camera_name" ∉ (CameraManager.getCameraStatus m cid).map Prod.fst ∧
    "restart_count" ∉ (CameraManager.getCameraStatus m cid).map Prod.fst ∧
    "pid" ∉ (CameraManager.getCameraStatus m cid).map Prod.fst := by
  have he : CameraManager.getCameraStatus m cid =
      [("camera_id", StatusValue.s cid),
       ("is_running", StatusValue.b false),
       ("is_recording", StatusValue.b false),
       ("hls_url", StatusValue.null)] := by
    unfold CameraManager.getCameraStatus
    rw [h]
  refine ⟨he, ?_, ?_, ?_⟩ <;> rw [he] <;> simp

/-- Witness for C10: the empty manager and camera id cam-x. -/
theorem get_camera_status_unregistered_witness :
    CameraManager.getCameraStatus emptyManager "cam-x" =
      [("camera_id", StatusValue.s "cam-x"),
       ("is_running", StatusValue.b false),
       ("is_recording", StatusValue.b false),
       ("hls_url", StatusValue.null)] ∧
    "camera_name" ∉ (CameraManager.getCameraStatus emptyManager "cam-x").map Prod.fst ∧
    "restart_count" ∉ (CameraManager.getCameraStatus emptyManager "cam-x").map Prod.fst ∧
    "pid" ∉ (CameraManager.getCameraStatus emptyManager "cam-x").map Prod.fst :=
  get_camera_status_unregistered emptyManager "cam-x" rfl

/-- C4: with recording disabled the built command is exactly the base
and HLS-output options and contains no archival segment-output flags;
with recording enabled the archival options are appended, including the
segment muxer flag and the output pattern under the per-camera storage
directory, and the per-camera per-date directory is among the
directories created on demand. -/
theorem build_command_recording_output (st : Settings) (cid : String)
    (rec : Bool) (url today : String) :
    (rec = false →
       (StreamWorker.buildFfmpegCommand st cid rec url today).1 =
         StreamWorker.ffmpegBaseArgs st url ++ StreamWorker.hlsOutputArgs st cid ∧
       Arg.lit "segment" ∉ (StreamWorker.buildFfmpegCommand st cid rec url today).1 ∧
       Arg.lit "-segment_time" ∉
         (StreamWorker.buildFfmpegCommand st cid rec url today).1) ∧
    (rec = true →
       (StreamWorker.buildFfmpegCommand st cid rec url today).1 =
         StreamWorker.ffmpegBaseArgs st url ++ StreamWorker.hlsOutputArgs st cid ++
           StreamWorker.recordingOutputArgs st cid ∧
       Arg.lit "segment" ∈ (StreamWorker.buildFfmpegCommand st cid rec url today).1 ∧
       Arg.data (StreamWorker.storagePath st cid ++ "/%Y-%m-%d/%H.mp4") ∈
         (StreamWorker.buildFfmpegCommand st cid rec url today).1 ∧
       StreamWorker.storagePath st cid ++ "/" ++ today ∈
         (StreamWorker.buildFfmpegCommand st cid rec url today).2) := by
  constructor
  · intro h
    subst h
    refine ⟨by simp [StreamWorker.buildFfmpegCommand], ?_, ?_⟩ <;>
      simp [StreamWorker.buildFfmpegCommand, StreamWorker.ffmpegBaseArgs,
        StreamWorker.hlsOutputArgs]
  · intro h
    subst h
    refine ⟨by simp [StreamWorker.buildFfmpegCommand], ?_, ?_, ?_⟩ <;>
      simp [StreamWorker.buildFfmpegCommand, StreamWorker.ffmpegBaseArgs,
        StreamWorker.hlsOutputArgs, StreamWorker.recordingOutputArgs]

/-- Witness for C4: the recording-disabled camera cam-1 and the
recording-enabled camera cam-2 under the test settings. -/
theorem build_command_recording_output_witness :
    ((StreamWorker.buildFfmpegCommand testSettings "cam-1" false "rtsp://h/p" "2026-10-12").1 =
       StreamWorker.ffmpegBaseArgs testSettings "rtsp://h/p" ++
         StreamWorker.hlsOutputArgs testSettings "cam-1" ∧
     Arg.lit "segment" ∉
       (StreamWorker.buildFfmpegCommand testSettings "cam-1" false "rtsp://h/p" "2026-10-12").1 ∧
     Arg.lit "-segment_time" ∉
       (StreamWorker.buildFfmpegCommand testSettings "cam-1" false "rtsp://h/p" "2026-10-12").1) ∧
    ((StreamWorker.buildFfmpegCommand testSettings "cam-2" true "rtsp://h/q" "2026-10-12").1 =
       StreamWorker.ffmpegBaseArgs testSettings "rtsp://h/q" ++
         StreamWorker.hlsOutputArgs testSettings "cam-2" ++
           StreamWorker.recordingOutputArgs testSettings "cam-2" ∧
     Arg.lit "segment" ∈
       (StreamWorker.buildFfmpegCommand testSettings "cam-2" true "rtsp://h/q" "2026-10-12").1 ∧
     Arg.data (StreamWorker.storagePath testSettings "cam-2" ++ "/%Y-%m-%d/%H.mp4") ∈
       (StreamWorker.buildFfmpegCommand testSettings "cam-2" true "rtsp://h/q" "2026-10-12").1 ∧
     StreamWorker.storagePath testSettings "cam-2" ++ "/" ++ "2026-10-12" ∈
       (StreamWorker.buildFfmpegCommand testSettings "cam-2" true "rtsp://h/q" "2026-10-12").2) :=
  ⟨(build_command_recording_output testSettings "cam-1" false "rtsp://h/p" "2026-10-12").1 rfl,
   (build_command_recording_output testSettings "cam-2" true "rtsp://h/q" "2026-10-12").2 rfl⟩

/-- Registry lookup misses every key that is absent from the key list. -/
theorem lookupWorker_eq_none (cid : String) :
    ∀ l : List (String × WorkerState), cid ∉ l.map Prod.fst →
      lookupWorker cid l = none
  | [], _ => rfl
  | (k, w) :: rest, h => by
    rw [lookupWorker]
    have hk : ¬ k = cid := by
      intro he
      exact h (by simp [he])
    rw [if_neg hk]
    exact lookupWorker_eq_none cid rest (fun hm => h (by simp [hm]))

/-- After popping a key from a registry with distinct keys, lookup of
that key misses. -/
theorem lookupWorker_removeWorkerEntry_self (cid : String) :
    ∀ l : List (String × WorkerState), (l.map Prod.fst).Nodup →
      lookupWorker cid (removeWorkerEntry cid l) = none
  | [], _ => rfl
  | (k, w) :: rest, h => by
    rw [removeWorkerEntry]
    have h' := h
    simp only [List.map_cons, List.nodup_cons] at h'
    by_cases hk : k = cid
    · rw [if_pos hk]
      subst hk
      exact lookupWorker_eq_none k rest h'.1
    · rw [if_neg hk, lookupWorker, if_neg hk]
      exact lookupWorker_removeWorkerEntry_self cid rest h'.2

/-- Lookup after a dict assignment finds the assigned worker. -/
theorem lookupWorker_setWorkerEntry_self (cid : String) (w : WorkerState) :
    ∀ l : List (String × WorkerState),
      lookupWorker cid (setWorkerEntry cid w l) = some w
  | [] => by simp [setWorkerEntry, lookupWorker]
  | (k, v) :: rest => by
    rw [setWorkerEntry]
    by_cases hk : k = cid
    · rw [if_pos hk, lookupWorker, if_pos hk]
    · rw [if_neg hk, lookupWorker, if_neg hk]
      exact lookupWorker_setWorkerEntry_self cid w rest

/-- C6: stop_camera returns True exactly when a worker is registered
under the id; afterwards the id is no longer registered; when a worker
was registered the registry entry is removed first and the visible
actions are the removal, then the worker's stop actions, then a single
offline status persistence; when none was registered nothing happens and
False is returned. -/
theorem stop_camera_spec (m : ManagerState) (cid : String) (ack : Bool)
    (hdb : m.hasDb = true)
    (hnodup : (m.workers.map Prod.fst).Nodup) :
    ((CameraManager.stopCamera m cid ack).1 =
       (lookupWorker cid m.workers).isSome) ∧
    lookupWorker cid (CameraManager.stopCamera m cid ack).2.1.workers = none ∧
    (∀ w, lookupWorker cid m.workers = some w →
       (CameraManager.stopCamera m cid ack).2.1 =
         { m with workers := removeWorkerEntry cid m.workers } ∧
       (CameraManager.stopCamera m cid ack).2.2 =
         Event.removeWorker cid :: (StreamWorker.stop w ack).2 ++
           [Event.persistStatus cid false]) ∧
    (lookupWorker cid m.workers = none →
       CameraManager.stopCamera m cid ack = (false, m, [])) := by
  cases hl : lookupWorker cid m.workers with
  | none =>
      refine ⟨?_, ?_, ?_, ?_⟩
      · simp [CameraManager.stopCamera, hl]
      · simp [CameraManager.stopCamera, hl]
      · intro w hw
        exact absurd hw (by simp)
      · intro _
        simp [CameraManager.stopCamera, hl]
  | some w =>
      refine ⟨?_, ?_, ?_, ?_⟩
      · simp [CameraManager.stopCamera, hl]
      · simp only [CameraManager.stopCamera, hl]
        exact lookupWorker_removeWorkerEntry_self cid m.workers hnodup
      · intro w' hw'
        cases hw'
        constructor
        · simp [CameraManager.stopCamera, hl]
        · simp [CameraManager.stopCamera, hl, CameraManager.updateCameraStatus, hdb]
      · intro hnone
        exact absurd hnone (by simp)

/-- Witness for C6: stopping cam-1 on the two-camera manager with a
graceful-termination timeout. -/
theorem stop_camera_spec_witness :
    (CameraManager.stopCamera testManager "cam-1" false).1 = true ∧
    lookupWorker "cam-1"
      (CameraManager.stopCamera testManager "cam-1" false).2.1.workers = none ∧
    (CameraManager.stopCamera testManager "cam-1" false).2.2 =
      Event.removeWorker "cam-1" :: (StreamWorker.stop runningWorker false).2 ++
        [Event.persistStatus "cam-1" false] := by
  have h := stop_camera_spec testManager "cam-1" false rfl (by decide)
  exact ⟨h.1.trans (by rfl), h.2.1, (h.2.2.1 runningWorker rfl).2⟩

/-- C9: start_camera for a camera whose registered worker is not running
builds a fresh worker, spawns it, overwrites the registry entry with the
fresh worker, and never emits a terminate or kill — the old worker's
process handle is abandoned rather than torn down. -/
theorem start_camera_overwrites_without_stopping_old (m : ManagerState)
    (cam : Camera) (pid : Nat) (oldW : WorkerState)
    (hreg : lookupWorker cam.id m.workers = some oldW)
    (hnotrun : StreamWorker.is_running oldW = false)
    (hdb : m.hasDb = true) :
    CameraManager.startCamera m cam true true pid =
      (true,
       { m with workers := setWorkerEntry cam.id (startedWorker cam pid) m.workers },
       [Event.spawn pid, Event.persistStatus cam.id true]) ∧
    lookupWorker cam.id
        (CameraManager.startCamera m cam true true pid).2.1.workers =
      some (startedWorker cam pid) ∧
    (∀ opid,
       Event.terminate opid ∉ (CameraManager.startCamera m cam true true pid).2.2 ∧
       Event.kill opid ∉ (CameraManager.startCamera m cam true true pid).2.2) := by
  have hmain : CameraManager.startCamera m cam true true pid =
      (true,
       { m with workers := setWorkerEntry cam.id (startedWorker cam pid) m.workers },
       [Event.spawn pid, Event.persistStatus cam.id true]) := by
    simp [CameraManager.startCamera, hreg, hnotrun, StreamWorker.start,
      StreamWorker.init, startedWorker, CameraManager.updateCameraStatus, hdb]
  refine ⟨hmain, ?_, ?_⟩
  · rw [hmain]
    exact lookupWorker_setWorkerEntry_self cam.id _ m.workers
  · intro opid
    rw [hmain]
    simp

/-- Witness for C9: restarting cam-1 on the manager holding the dead
cam-1 worker with the stale handle pid 50. -/
theorem start_camera_overwrites_without_stopping_old_witness :
    CameraManager.startCamera managerWithDead cam1 true true 300 =
      (true,
       { managerWithDead with
         workers := setWorkerEntry cam1.id (startedWorker cam1 300)
           managerWithDead.workers },
       [Event.spawn 300, Event.persistStatus cam1.id true]) ∧
    Event.terminate 50 ∉
      (CameraManager.startCamera managerWithDead cam1 true true 300).2.2 ∧
    Event.kill 50 ∉
      (CameraManager.startCamera managerWithDead cam1 true true 300).2.2 := by
  have h := start_camera_overwrites_without_stopping_old managerWithDead cam1 300
    deadWorker rfl rfl rfl
  exact ⟨h.1, (h.2.2 50).1, (h.2.2 50).2⟩

/-- Worker stop with a live handle always sends terminate, and also kill
when the graceful wait times out. -/
theorem stop_events_mem (s : WorkerState) (ack : Bool) (pid : Nat)
    (h : s.process = some pid) :
    Event.terminate pid ∈ (StreamWorker.stop s ack).2 ∧
    (ack = false → Event.kill pid ∈ (StreamWorker.stop s ack).2) := by
  cases ack <;> simp [StreamWorker.stop, h]

/-- Shutdown sweep over the snapshot of the registry's keys: when the
keys are exactly the registry's (distinct) keys, the sweep empties the
registry, preserves the running and monitor-task flags, and its action
trace contains, for every registered worker, its registry removal and —
when it held a process handle — a terminate signal, plus a kill when its
graceful stop was not acknowledged. -/
theorem stopAll_spec (acks : String → Bool) :
    ∀ (ids : List String) (m : ManagerState),
      ids = m.workers.map Prod.fst → ids.Nodup →
      (CameraManager.stopAll acks m ids).1.workers = [] ∧
      (CameraManager.stopAll acks m ids).1.running = m.running ∧
      (CameraManager.stopAll acks m ids).1.monitorTask = m.monitorTask ∧
      ∀ cid w, (cid, w) ∈ m.workers →
        Event.removeWorker cid ∈ (CameraManager.stopAll acks m ids).2 ∧
        ∀ pid, w.process = some pid →
          Event.terminate pid ∈ (CameraManager.stopAll acks m ids).2 ∧
          (acks cid = false → Event.kill pid ∈ (CameraManager.stopAll acks m ids).2)
  | [], m, hids, _ => by
    have hw : m.workers = [] := by
      cases hmw : m.workers with
      | nil => rfl
      | cons p tl =>
          rw [hmw] at hids
          simp at hids
    refine ⟨?_, rfl, rfl, ?_⟩
    · simpa [CameraManager.stopAll] using hw
    · intro cid w hm
      rw [hw] at hm
      exact absurd hm (by simp)
  | cid :: rest, m, hids, hnodup => by
    cases hmw : m.workers with
    | nil =>
        rw [hmw] at hids
        simp at hids
    | cons p tl =>
        obtain ⟨c0, w0⟩ := p
        rw [hmw] at hids
        simp only [List.map_cons] at hids
        have hc0 : cid = c0 := by
          injection hids
        have htl : rest = tl.map Prod.fst := by
          injection hids
        subst hc0
        have hlook : lookupWorker cid m.workers = some w0 := by
          rw [hmw, lookupWorker, if_pos rfl]
        have hrm : removeWorkerEntry cid m.workers = tl := by
          rw [hmw, removeWorkerEntry, if_pos rfl]
        have hstopc : CameraManager.stopCamera m cid (acks cid) =
            (true, { m with workers := tl },
             Event.removeWorker cid :: (StreamWorker.stop w0 (acks cid)).2 ++
               CameraManager.updateCameraStatus { m with workers := tl } cid false) := by
          simp [CameraManager.stopCamera, hlook, hrm]
        have hall : CameraManager.stopAll acks m (cid :: rest) =
            ((CameraManager.stopAll acks { m with workers := tl } rest).1,
             (Event.removeWorker cid :: (StreamWorker.stop w0 (acks cid)).2 ++
                CameraManager.updateCameraStatus { m with workers := tl } cid false) ++
               (CameraManager.stopAll acks { m with workers := tl } rest).2) := by
          rw [CameraManager.stopAll, hstopc]
        have ih := stopAll_spec acks rest { m with workers := tl } htl
          (List.nodup_cons.mp hnodup).2
        refine ⟨?_, ?_, ?_, ?_⟩
        · rw [hall]
          exact ih.1
        · rw [hall]
          exact ih.2.1
        · rw [hall]
          exact ih.2.2.1
        · intro cid' w' hm
          rcases List.mem_cons.mp hm with heq | htail
          · rw [Prod.mk.injEq] at heq
            obtain ⟨rfl, rfl⟩ := heq
            refine ⟨by rw [hall]; simp, ?_⟩
            intro pid hpid
            have hs := stop_events_mem w' (acks cid') pid hpid
            constructor
            · rw [hall]
              simp only [List.mem_append, List.mem_cons]
              tauto
            · intro hack
              rw [hall]
              simp only [List.mem_append, List.mem_cons]
              have := hs.2 hack
              tauto
          · have h4 := ih.2.2.2 cid' w' htail
            refine ⟨by rw [hall]; exact List.mem_append.mpr (Or.inr h4.1), ?_⟩
            intro pid hpid
            have h5 := h4.2 pid hpid
            exact ⟨by rw [hall]; exact List.mem_append.mpr (Or.inr h5.1),
                   fun hack => by
                     rw [hall]
                     exact List.mem_append.mpr (Or.inr (h5.2 hack))⟩

/-- C5: manager stop clears the running flag and the health-monitor
task, with the health-monitor cancellation as the first visible action
when a monitor task existed; afterwards the registry is empty; and every
worker that was registered was removed and — when it held a process
handle — received a terminate signal, escalated to a kill when it did
not acknowledge graceful termination within the grace period. -/
theorem manager_stop_spec (m : ManagerState) (acks : String → Bool)
    (hnodup : (m.workers.map Prod.fst).Nodup) :
    (CameraManager.managerStop m acks).1.workers = [] ∧
    (CameraManager.managerStop m acks).1.running = false ∧
    (CameraManager.managerStop m acks).1.monitorTask = false ∧
    (m.monitorTask = true →
       (CameraManager.managerStop m acks).2.head? =
         some Event.cancelHealthMonitor) ∧
    ∀ cid w, (cid, w) ∈ m.workers →
      Event.removeWorker cid ∈ (CameraManager.managerStop m acks).2 ∧
      ∀ pid, w.process = some pid →
        Event.terminate pid ∈ (CameraManager.managerStop m acks).2 ∧
        (acks cid = false → Event.kill pid ∈ (CameraManager.managerStop m acks).2) := by
  have hspec := stopAll_spec acks (m.workers.map Prod.fst)
    { m with running := false, monitorTask := false } rfl hnodup
  have hms : CameraManager.managerStop m acks =
      ((CameraManager.stopAll acks { m with running := false, monitorTask := false }
          (m.workers.map Prod.fst)).1,
       (if m.monitorTask then [Event.cancelHealthMonitor] else []) ++
         (CameraManager.stopAll acks { m with running := false, monitorTask := false }
            (m.workers.map Prod.fst)).2) := rfl
  refine ⟨?_, ?_, ?_, ?_, ?_⟩
  · rw [hms]
    exact hspec.1
  · rw [hms]
    exact hspec.2.1
  · rw [hms]
    exact hspec.2.2.1
  · intro hmt
    rw [hms, hmt]
    simp
  · intro cid w hw
    have h4 := hspec.2.2.2 cid w hw
    refine ⟨by rw [hms]; exact List.mem_append.mpr (Or.inr h4.1), ?_⟩
    intro pid hpid
    have h5 := h4.2 pid hpid
    exact ⟨by rw [hms]; exact List.mem_append.mpr (Or.inr h5.1),
           fun hack => by
             rw [hms]
             exact List.mem_append.mpr (Or.inr (h5.2 hack))⟩

/-- Witness for C5: the two-camera manager, cam-2 never acknowledging
termination: the map is empty, the health-monitor cancellation comes
first, both pids receive terminate, and pid 200 is force-killed. -/
theorem manager_stop_spec_witness :
    (CameraManager.managerStop testManager testAcks).1.workers = [] ∧
    (CameraManager.managerStop testManager testAcks).1.running = false ∧
    (CameraManager.managerStop testManager testAcks).2.head? =
      some Event.cancelHealthMonitor ∧
    Event.terminate 100 ∈ (CameraManager.managerStop testManager testAcks).2 ∧
    Event.terminate 200 ∈ (CameraManager.managerStop testManager testAcks).2 ∧
    Event.kill 200 ∈ (CameraManager.managerStop testManager testAcks).2 := by
  have h := manager_stop_spec testManager testAcks (by decide)
  have h1 := h.2.2.2.2 "cam-1" runningWorker (by simp [testManager])
  have h2 := h.2.2.2.2 "cam-2" runningWorker2 (by simp [testManager])
  exact ⟨h.1, h.2.1, h.2.2.2.1 rfl, (h1.2 100 rfl).1, (h2.2 200 rfl).1,
         (h2.2 200 rfl).2 (by decide)⟩

/-- Percent-decoding passes an unescaped non-percent byte through. -/
theorem unquoteBytes_cons_ne (b : Nat) (l : List Nat) (h : b ≠ 37) :
    unquoteBytes (b :: l) = b :: unquoteBytes l := by
  match l with
  | [] => simp [unquoteBytes]
  | [x] =>
    rw [unquoteBytes.eq_def]
    simp
  | x :: y :: rest =>
    rw [unquoteBytes.eq_def]
    split
    · rename_i heq
      exact absurd heq (by simp)
    · rename_i heq
      injection heq with hb _
      exact absurd hb h
    · rename_i heq
      injection heq with hc hrest
      rw [← hc, ← hrest]

/-- Percent-decoding decodes a valid escape sequence to its byte. -/
theorem unquoteBytes_escape (h1 h2 : Nat) (rest : List Nat) (a b : Nat)
    (ha : hexVal h1 = some a) (hb : hexVal h2 = some b) :
    unquoteBytes (37 :: h1 :: h2 :: rest) = (16 * a + b) :: unquoteBytes rest := by
  rw [unquoteBytes.eq_def]
  simp [ha, hb]

set_option maxRecDepth 8192 in
/-- Encoding any byte yields no literal caret, at sign, colon or slash:
the URL-delimiter characters the credentials must escape never survive
quoting. -/
theorem quoteByte_no_url_delims :
    ∀ b, b < 256 → ∀ c ∈ quoteByte b, c ≠ 94 ∧ c ≠ 64 ∧ c ≠ 58 ∧ c ≠ 47 := by
  decide

/-- The percent sign is not an always-safe byte. -/
theorem isAlwaysSafe_ne37 (b : Nat) (h : isAlwaysSafe b = true) : b ≠ 37 := by
  intro hb
  rw [hb] at h
  exact absurd h (by decide)

/-- Hex digits produced by the quoter decode back to their value. -/
theorem hexVal_hexDigit (n : Nat) (h : n < 16) : hexVal (hexDigit n) = some n := by
  revert n
  decide

/-- Decoding once after quoting reproduces the original byte string. -/
theorem unquote_quote (s : List Nat) (h : ∀ b ∈ s, b < 256) :
    unquoteBytes (quoteBytes s) = s := by
  induction s with
  | nil => rfl
  | cons b rest ih =>
    have hb : b < 256 := h b (by simp)
    have hrest : ∀ x ∈ rest, x < 256 := fun x hx => h x (by simp [hx])
    rw [quoteBytes]
    by_cases hsafe : isAlwaysSafe b
    · rw [quoteByte, if_pos hsafe]
      show unquoteBytes (b :: quoteBytes rest) = b :: rest
      rw [unquoteBytes_cons_ne b _ (isAlwaysSafe_ne37 b hsafe), ih hrest]
    · rw [quoteByte, if_neg hsafe]
      show unquoteBytes
        (37 :: hexDigit (b / 16) :: hexDigit (b % 16) :: quoteBytes rest) = b :: rest
      rw [unquoteBytes_escape _ _ _ (b / 16) (b % 16)
        (hexVal_hexDigit (b / 16) (by omega)) (hexVal_hexDigit (b % 16) (by omega))]
      rw [ih hrest, Nat.div_add_mod b 16]

/-- Every byte of a quoted string comes from quoting one input byte. -/
theorem mem_quoteBytes (c : Nat) :
    ∀ s : List Nat, c ∈ quoteBytes s → ∃ b, b ∈ s ∧ c ∈ quoteByte b
  | [], hc => absurd hc (by simp [quoteBytes])
  | b :: rest, hc => by
    rw [quoteBytes] at hc
    rcases List.mem_append.mp hc with hhead | htail
    · exact ⟨b, by simp, hhead⟩
    · obtain ⟨b', hb', hcb'⟩ := mem_quoteBytes c rest htail
      exact ⟨b', by simp [hb'], hcb'⟩

/-- The quoted form of a byte string of bytes contains no literal at
sign. -/
theorem not_mem_quoteBytes_64 (s : List Nat) (h : ∀ b ∈ s, b < 256) :
    64 ∉ quoteBytes s := by
  intro hc
  obtain ⟨b, hb, hcb⟩ := mem_quoteBytes 64 s hc
  exact (quoteByte_no_url_delims b (h b hb) 64 hcb).2.1 rfl

/-- C3: for a camera with a non-empty username and password, credentials
are embedded only when the URL has a scheme separator and its remainder
holds no at sign already (otherwise the URL is returned unchanged); when
they are embedded, the result is
protocol ++ "://" ++ quote(user) ++ ":" ++ quote(pass) ++ "@" ++ rest,
decoding the embedded credentials once reproduces the originals, the
quoted credentials contain no literal caret, at sign, colon or slash,
and the whole URL contains exactly one unescaped at sign — the host
separator. -/
theorem build_rtsp_url_with_auth_spec
    (rtspUrl username password protocol rest : List Nat)
    (hu : ∀ b ∈ username, b < 256) (hp : ∀ b ∈ password, b < 256)
    (hune : username ≠ []) (hpne : password ≠ [])
    (hsplit : splitOnFirst schemeSep rtspUrl = some (protocol, rest))
    (hproto : 64 ∉ protocol) :
    (64 ∈ rest → buildRtspUrlWithAuth rtspUrl username password = rtspUrl) ∧
    (64 ∉ rest →
       buildRtspUrlWithAuth rtspUrl username password =
         protocol ++ schemeSep ++ quoteBytes username ++ [58] ++
           quoteBytes password ++ [64] ++ rest ∧
       unquoteBytes (quoteBytes username) = username ∧
       unquoteBytes (quoteBytes password) = password ∧
       (∀ c ∈ quoteBytes username, c ≠ 94 ∧ c ≠ 64 ∧ c ≠ 58 ∧ c ≠ 47) ∧
       (∀ c ∈ quoteBytes password, c ≠ 94 ∧ c ≠ 64 ∧ c ≠ 58 ∧ c ≠ 47) ∧
       List.count 64 (buildRtspUrlWithAuth rtspUrl username password) = 1) := by
  constructor
  · intro h64
    simp [buildRtspUrlWithAuth, hune, hpne, hsplit, h64]
  · intro h64
    have hmain : buildRtspUrlWithAuth rtspUrl username password =
        protocol ++ schemeSep ++ quoteBytes username ++ [58] ++
          quoteBytes password ++ [64] ++ rest := by
      simp [buildRtspUrlWithAuth, hune, hpne, hsplit, h64]
    refine ⟨hmain, unquote_quote username hu, unquote_quote password hp,
            ?_, ?_, ?_⟩
    · intro c hc
      obtain ⟨b, hb, hcb⟩ := mem_quoteBytes c username hc
      exact quoteByte_no_url_delims b (hu b hb) c hcb
    · intro c hc
      obtain ⟨b, hb, hcb⟩ := mem_quoteBytes c password hc
      exact quoteByte_no_url_delims b (hp b hb) c hcb
    · rw [hmain]
      rw [List.count_append, List.count_append, List.count_append,
          List.count_append, List.count_append, List.count_append]
      rw [List.count_eq_zero.mpr hproto, List.count_eq_zero.mpr h64,
          List.count_eq_zero.mpr (not_mem_quoteBytes_64 username hu),
          List.count_eq_zero.mpr (not_mem_quoteBytes_64 password hp)]
      rfl

/-- Witness for C3: URL rtsp://h/p (bytes), username a, password with
exactly the five delimiter characters percent caret at colon slash. -/
theorem build_rtsp_url_with_auth_spec_witness :
    buildRtspUrlWithAuth
        [114, 116, 115, 112, 58, 47, 47, 104, 47, 112] [97]
        [37, 94, 64, 58, 47] =
      [114, 116, 115, 112] ++ schemeSep ++ quoteBytes [97] ++ [58] ++
        quoteBytes [37, 94, 64, 58, 47] ++ [64] ++ [104, 47, 112] ∧
    unquoteBytes (quoteBytes [97]) = [97] ∧
    unquoteBytes (quoteBytes [37, 94, 64, 58, 47]) = [37, 94, 64, 58, 47] ∧
    List.count 64
      (buildRtspUrlWithAuth
        [114, 116, 115, 112, 58, 47, 47, 104, 47, 112] [97]
        [37, 94, 64, 58, 47]) = 1 := by
  have h := (build_rtsp_url_with_auth_spec
    [114, 116, 115, 112, 58, 47, 47, 104, 47, 112] [97] [37, 94, 64, 58, 47]
    [114, 116, 115, 112] [104, 47, 112]
    (by decide) (by decide) (by decide) (by decide) (by decide) (by decide)).2
    (by decide)
  exact ⟨h.1, h.2.1, h.2.2.1, h.2.2.2.2.2⟩

end Goddamneye
